import Mathlib

/-!
Verification development for the StimNet federated compute node.

The definitions below are a shallow embedding of the Python source:
  - src/distributed_node/security.py        (validate_script_security)
  - src/distributed_node/real_executor.py   (RealScriptExecutor)
  - src/distributed_node/real_main.py       (_execute_job_sync, get_job_status)
  - src/distributed_node/main.py            (get_job_status, cancel_job)
  - src/distributed_node/job_executor.py    (JobExecutor)
  - src/data_layer/privacy_manager.py       (PrivacyManager)
  - src/work/.../data_loader.py             (save_results)
Python floats are modelled as rationals, JSON documents as an inductive
value type, and database rows as Lean structures.  Python truthiness of
nullable integer columns is modelled explicitly.
-/

namespace StimNet

/-- JSON-like values as produced by json.load / stored in the result_data
column: null, booleans, ints, floats (modelled as rationals), strings,
arrays and string-keyed objects. -/
inductive JValue where
  | jnull
  | jbool (b : Bool)
  | jint (n : Int)
  | jfloat (q : ℚ)
  | jstr (s : String)
  | jarr (xs : List JValue)
  | jobj (fields : List (String × JValue))
deriving Repr

/-- Whether the character list `pat` is an initial segment of `hay`. -/
def listStarts : List Char → List Char → Bool
  | [], _ => true
  | _ :: _, [] => false
  | p :: ps, h :: hs => p == h && listStarts ps hs

/-- Whether the character list `pat` occurs contiguously inside `hay`
(the semantics of the Python `in` operator on strings). -/
def listOccurs (pat : List Char) : List Char → Bool
  | [] => pat.isEmpty
  | c :: hs => listStarts pat (c :: hs) || listOccurs pat hs

/-- Python `pat in hay` on strings. -/
def strOccurs (hay pat : String) : Bool :=
  listOccurs pat.toList hay.toList

/-- Python str.lower() on ASCII text, written over the character list
so that it reduces definitionally. -/
def pyLower (s : String) : String := ⟨s.data.map Char.toLower⟩

/-- The python entry of `dangerous_patterns` in
security.validate_script_security (security.py lines 87-113). -/
def Security.python_patterns : List String :=
  ["__import__", "exec(", "eval(", "compile(", "open(", "file(",
   "input(", "raw_input(", "subprocess", "os.system", "os.popen",
   "os.spawn", "shutil.rmtree", "socket", "urllib", "requests", "http",
   "ftp", "telnet", "pickle", "marshal", "ctypes", "sys.exit",
   "quit(", "exit("]

/-- The high-danger subset consulted at security.py line 306. -/
def Security.high_danger : List String :=
  ["DROP", "DELETE", "system(", "exec(", "eval("]

/-- Result record of security.validate_script_security. -/
structure ValidationResult where
  is_safe : Bool
  warnings : List String
  blocked_patterns : List String
  risk_level : String
deriving DecidableEq, Repr

/-- security.validate_script_security (security.py lines 73-324)
specialised to script_type python: case-insensitive substring matches
over the python pattern list; risk becomes high and is_safe false only
when a matched pattern belongs to the high-danger subset; more than
three matches give medium risk; oversize or very long scripts bump the
risk to medium. -/
def Security.validate_script_security (script_content : String) : ValidationResult :=
  let script_lower := pyLower script_content
  let blocked := Security.python_patterns.filter
    (fun p => strOccurs script_lower (pyLower p))
  let warnings := blocked.map
    (fun p => "Potentially dangerous pattern detected: " ++ p)
  let highHit := blocked.any (fun p => Security.high_danger.contains p)
  let risk1 :=
    if blocked.length > 0 then
      if highHit then "high"
      else if blocked.length > 3 then "medium"
      else "low"
    else "low"
  let warnings2 :=
    if script_content.length > 50000 then warnings ++ ["Script is very large"]
    else warnings
  let risk2 := if script_content.length > 50000 then "medium" else risk1
  let nl := (script_content.toList.filter (fun c => c == '\n')).length
  let warnings3 :=
    if nl > 1000 then warnings2 ++ ["Script has many lines"] else warnings2
  let risk3 := if nl > 1000 then "medium" else risk2
  { is_safe := !highHit, warnings := warnings3,
    blocked_patterns := blocked, risk_level := risk3 }

/-- Result record of RealScriptExecutor.validate_script_security
(real_executor.py lines 198-244), which has no risk_level field. -/
structure RealValidation where
  is_safe : Bool
  warnings : List String
  blocked_patterns : List String
deriving DecidableEq, Repr

/-- The per-kind warn lists of RealScriptExecutor.validate_script_security
(real_executor.py lines 208-227). -/
def RealExecutor.dangerous_patterns (script_type : String) : List String :=
  if pyLower script_type == "python" then
    ["import os", "import subprocess", "import sys", "__import__",
     "exec(", "eval(", "open(", "file(", "input(", "raw_input("]
  else if pyLower script_type == "r" then
    ["system(", "shell(", "file(", "download"]
  else []

/-- RealScriptExecutor.validate_script_security (real_executor.py lines
198-244): warnings and blocked_patterns come from the per-kind list,
while is_safe is decided by a separate loop over the four high-risk
patterns, independent of the per-kind list. -/
def RealExecutor.validate_script_security
    (script_content script_type : String) : RealValidation :=
  let script_lower := pyLower script_content
  let blocked := (RealExecutor.dangerous_patterns script_type).filter
    (fun p => strOccurs script_lower (pyLower p))
  let warnings := blocked.map
    (fun p => "Potentially dangerous pattern: " ++ p)
  let is_safe := !(["subprocess", "os.system", "exec(", "eval("].any
    (fun p => strOccurs script_lower (pyLower p)))
  { is_safe := is_safe, warnings := warnings, blocked_patterns := blocked }

/-- Round-half-to-even on a rational, the semantics of the Python builtin
round applied to an exactly representable value. -/
def roundHalfEven (q : ℚ) : ℤ :=
  let f := ⌊q⌋
  let r := q - f
  if r < 1 / 2 then f
  else if 1 / 2 < r then f + 1
  else if f % 2 = 0 then f else f + 1

/-- Python round(q, p): round to p decimal places, half to even. -/
def pyRound (p : Nat) (q : ℚ) : ℚ :=
  (roundHalfEven (q * 10 ^ p) : ℚ) / 10 ^ p

mutual
/-- PrivacyManager._sanitize_result_dict (privacy_manager.py lines
115-150) with differential privacy disabled (the default configuration):
floats at dictionary-value positions are rounded to max_precision p,
ints pass through, nested dicts are recursed, lists longer than
min_cohort_size m are replaced by a placeholder string and shorter lists
are kept verbatim (their elements are not visited), everything else
passes through. `sanitize_value` handles one dictionary value and
`sanitize_fields` one dictionary. -/
def sanitize_value (m : Int) (p : Nat) : JValue → JValue
  | .jfloat q => .jfloat (pyRound p q)
  | .jint n => .jint n
  | .jobj fs => .jobj (sanitize_fields m p fs)
  | .jarr xs =>
    if (xs.length : Int) > m then
      .jstr ("<list of " ++ toString xs.length ++ " items>")
    else .jarr xs
  | v => v
def sanitize_fields (m : Int) (p : Nat) :
    List (String × JValue) → List (String × JValue)
  | [] => []
  | (k, v) :: rest => (k, sanitize_value m p v) :: sanitize_fields m p rest
end

/-- The suspicious_keys list of PrivacyManager._contains_individual_data
(privacy_manager.py lines 90-94). -/
def suspicious_keys : List String :=
  ["subject_id", "patient_id", "participant_id", "id",
   "name", "email", "phone", "address", "ssn",
   "birth_date", "dob", "age_exact"]

mutual
/-- check_nested inside PrivacyManager._contains_individual_data
(privacy_manager.py lines 96-111): gives up beyond depth 3, scans the
keys of a dict for suspicious substrings and recurses into dict or list
values; for a nonempty list only the first element is inspected. -/
def check_nested (depth : Nat) (v : JValue) : Bool :=
  if depth > 3 then false
  else match v with
    | .jobj fs => check_fields depth fs
    | .jarr (x :: _) => check_nested (depth + 1) x
    | _ => false
def check_fields (depth : Nat) (fs : List (String × JValue)) : Bool :=
  match fs with
  | [] => false
  | (k, v) :: rest =>
    suspicious_keys.any (fun sk => strOccurs (pyLower k) sk) ||
    (match v with
     | .jobj _ => check_nested (depth + 1) v
     | .jarr _ => check_nested (depth + 1) v
     | _ => false) ||
    check_fields depth rest
end

/-- The argument types PrivacyManager.check_cohort_size distinguishes:
a DataFrame (only its row count matters), a Python list, an int, and
anything else. -/
inductive CohortInput where
  | dataframe (rows : Nat)
  | pylist (xs : List JValue)
  | pyint (n : Int)
  | other
deriving Repr

/-- The record returned by PrivacyManager.check_cohort_size. -/
structure CohortCheck where
  is_valid : Bool
  cohort_size : Int
  min_required : Int
  message : String
deriving DecidableEq, Repr

/-- The size computed by PrivacyManager.check_cohort_size
(privacy_manager.py lines 32-39): len for DataFrame and list inputs,
the value for an int input, 0 for anything else. -/
def cohort_input_size : CohortInput → Int
  | .dataframe rows => rows
  | .pylist xs => xs.length
  | .pyint n => n
  | .other => 0

/-- PrivacyManager.check_cohort_size (privacy_manager.py lines 30-48). -/
def check_cohort_size (min_cohort_size : Int) (data : CohortInput) : CohortCheck :=
  let size := cohort_input_size data
  let is_valid := decide (size ≥ min_cohort_size)
  { is_valid := is_valid
    cohort_size := size
    min_required := min_cohort_size
    message :=
      if is_valid then "OK"
      else "Cohort size " ++ toString size ++ " below minimum " ++
        toString min_cohort_size }

/-- The JobStatus enumeration (models.py). -/
inductive JobStatus where
  | queued
  | running
  | completed
  | failed
  | cancelled
  | blocked
deriving DecidableEq, Repr

/-- The four terminal statuses of the job state machine. -/
def JobStatus.isTerminal : JobStatus → Bool
  | .completed => true
  | .failed => true
  | .cancelled => true
  | .blocked => true
  | _ => false

/-- The fields of a stored Job row that the verified operations read or
write (models.py); timestamps are omitted. records_processed and the
result and error columns are nullable. -/
structure Job where
  job_id : String
  status : JobStatus
  script_type : String
  script_content : String
  result_data : Option JValue
  error_message : Option String
  records_processed : Option Int
deriving Repr

/-- Python truthiness of a nullable integer column: None and 0 are
falsy, every other integer is truthy. -/
def optIntTruthy : Option Int → Bool
  | none => false
  | some n => n != 0

/-- The redaction message built by get_job_status in real_main.py line
448. -/
def blockedMessage (r m : Int) : String :=
  "Results blocked: cohort size (" ++ toString r ++ ") < minimum (" ++
    toString m ++ ")"

/-- The job view returned over HTTP: the subset of fields the claims
are about. -/
structure JobView where
  status : JobStatus
  result_data : Option JValue
  error_message : Option String
  records_processed : Option Int
deriving Repr

/-- get_job_status (real_main.py lines 429-458; main.py lines 267-296
is identical except for the message text): when the row is completed
AND records_processed is truthy AND below the node-wide
settings.min_cohort_size, a blocked view carrying only the redaction
message is returned; otherwise the row is projected as stored.  No
per-catalog min_cohort_size override is consulted here. -/
def get_job_status (min_cohort_size : Int) (job : Job) : JobView :=
  if job.status == JobStatus.completed && optIntTruthy job.records_processed
      && decide (job.records_processed.getD 0 < min_cohort_size) then
    { status := .blocked
      result_data := some (.jobj [("message",
        .jstr (blockedMessage (job.records_processed.getD 0) min_cohort_size))])
      error_message := none
      records_processed := job.records_processed }
  else
    { status := job.status
      result_data := job.result_data
      error_message := job.error_message
      records_processed := job.records_processed }

/-- The effective minimum cohort size in the sense of the specification:
the per-catalog override when the catalog declares one, otherwise the
node-wide default.  Used to state the claims; the code of
get_job_status only ever reads the node-wide default. -/
def effective_min_cohort_size (catalog_override : Option Int)
    (node_default : Int) : Int :=
  catalog_override.getD node_default

/-- Outcome of the cancel endpoint: a success message or an HTTP error
response. -/
inductive CancelOutcome where
  | ok (message : String)
  | httpError (code : Nat) (detail : String)
deriving DecidableEq, Repr

/-- cancel_job (main.py lines 315-331): allowed only from queued or
running; otherwise the handler raises a 400 before any write, leaving
the row untouched. -/
def cancel_job (job : Job) : Job × CancelOutcome :=
  if job.status == JobStatus.queued || job.status == JobStatus.running then
    ({ job with status := .cancelled }, .ok "Job cancelled successfully")
  else
    (job, .httpError 400 "Job cannot be cancelled")

/-- First value stored under key k in a JSON object, Python dict.get. -/
def lookupJ (k : String) : List (String × JValue) → Option JValue
  | [] => none
  | (k2, v) :: rest => if k2 == k then some v else lookupJ k rest

/-- The node-wide configuration options the verified operations read
(config.py): the hard wall-clock limit and the release threshold, with
their declared defaults. -/
structure Settings where
  max_execution_time : Nat := 3600
  min_cohort_size : Int := 10
deriving Repr

/-- Captured streams and exit code of a finished interpreter process. -/
structure SubprocessResult where
  returncode : Int
  stdout : String
  stderr : String
deriving DecidableEq, Repr

/-- The outcome dictionary RealScriptExecutor.execute_script returns to
the worker (real_executor.py lines 95-129). -/
structure ExecResult where
  success : Bool
  data : JValue
  error : Option String
  records_processed : Option Int
deriving Repr

/-- The hard-coded subprocess timeout of
RealScriptExecutor._execute_python_script (real_executor.py line 147):
300 seconds, independent of settings.max_execution_time. -/
def RealExecutor.python_timeout_seconds : Nat := 300

/-- RealScriptExecutor._execute_python_script (real_executor.py lines
136-159) on a script whose natural wall-clock duration is `duration`
seconds: past the hard-coded 300-second limit the subprocess is killed
and a timeout exception is raised; otherwise the captured process
result is returned. -/
def RealExecutor.run_python (duration : Nat) (res : SubprocessResult) :
    Except String SubprocessResult :=
  if duration > RealExecutor.python_timeout_seconds then
    .error "Script execution timed out (5 minutes)"
  else .ok res

/-- records_processed as computed by RealScriptExecutor.execute_script
line 104: output_data.get("sample_size", 0).  The job row column is
integral, so the embedding reads an integer-valued sample_size and
falls back to the Python default 0 otherwise. -/
def RealExecutor.records_from_output (out : List (String × JValue)) : Int :=
  match lookupJ "sample_size" out with
  | some (.jint n) => n
  | _ => 0

/-- RealScriptExecutor.execute_script (real_executor.py lines 26-134)
after workspace setup, for a python script of natural duration
`duration`: a raised timeout becomes a failure result carrying the
exception text; otherwise, when the workspace holds an output.json its
parsed object is the result data and records_processed is taken from
its sample_size key (default 0); when there is no output file the run
still counts as a success with a placeholder object and
records_processed 0. -/
def RealExecutor.execute_script (duration : Nat) (res : SubprocessResult)
    (output_file : Option (List (String × JValue))) : ExecResult :=
  match RealExecutor.run_python duration res with
  | .error e =>
    { success := false
      data := .jobj [("error", .jstr e), ("failed", .jbool true)]
      error := some e
      records_processed := none }
  | .ok r =>
    match output_file with
    | some out =>
      { success := true
        data := .jobj out
        error := none
        records_processed := some (RealExecutor.records_from_output out) }
    | none =>
      { success := true
        data := .jobj [("message", .jstr "Script executed successfully"),
          ("no_output_file", .jbool true), ("stdout", .jstr r.stdout)]
        error := none
        records_processed := some 0 }

/-- The outcome dictionary the JobExecutor runner backends return
(job_executor.py). -/
structure RunOutcome where
  success : Bool
  data : Option JValue
  error : Option String
  records_processed : Option Int
  logs : String
deriving Repr

/-- records_processed as read by the JobExecutor backends
(job_executor.py lines 253 and 390): output_data.get("records_processed"),
None when the key is absent. -/
def JobExecutor.records_from_output (out : List (String × JValue)) : Option Int :=
  match lookupJ "records_processed" out with
  | some (.jint n) => some n
  | _ => none

/-- JobExecutor._run_locally for a python script (job_executor.py lines
350-398), given the finished subprocess and the optional parsed
output.json: a non-zero exit code yields a failure whose error embeds
the exit code and the stderr stream; a zero exit yields a success whose
data is the output object, or a placeholder object when no output file
was generated. -/
def JobExecutor.run_locally_python (res : SubprocessResult)
    (output_file : Option (List (String × JValue))) : RunOutcome :=
  if res.returncode != 0 then
    { success := false
      data := none
      error := some ("Script execution failed with exit code " ++
        toString res.returncode ++ "\nStderr: " ++ res.stderr)
      records_processed := none
      logs := "" }
  else
    let out := output_file.getD [("message", .jstr "No output file generated")]
    { success := true
      data := some (.jobj out)
      error := none
      records_processed := JobExecutor.records_from_output out
      logs := res.stdout }

/-- JobExecutor._run_locally including its wall-clock limit
(job_executor.py lines 359-366): subprocess.run is bounded by
settings.max_execution_time; the TimeoutExpired it raises is caught by
the surrounding handler and becomes a failure outcome whose error is
the stringified exception. -/
def JobExecutor.run_locally_timed (s : Settings) (duration : Nat)
    (res : SubprocessResult)
    (output_file : Option (List (String × JValue))) : RunOutcome :=
  if duration > s.max_execution_time then
    { success := false
      data := none
      error := some ("Command timed out after " ++
        toString s.max_execution_time ++ " seconds")
      records_processed := none
      logs := "" }
  else JobExecutor.run_locally_python res output_file

/-- JobExecutor._execute_job (job_executor.py lines 99-151) for a
dequeued job id, with the runner outcome abstracted as an argument: a
missing row is skipped with no write; otherwise the row is moved to
running WITHOUT checking its current status, the static validation of
security.py runs, and the job is finished as failed (unsafe script or
failed run) or completed (successful run).  The warning list is
formatted into the error text; the empty list prints as in Python. -/
def JobExecutor.execute_job (row : Option Job) (outcome : RunOutcome) :
    Option Job :=
  match row with
  | none => none
  | some job =>
    let job1 := { job with status := JobStatus.running }
    let sec := Security.validate_script_security job.script_content
    if !sec.is_safe then
      some { job1 with
             status := .failed,
             error_message := some ("Script failed security validation: " ++
               toString sec.warnings) }
    else if outcome.success then
      some { job1 with
             status := .completed,
             result_data := outcome.data,
             records_processed := outcome.records_processed }
    else
      some { job1 with status := .failed, error_message := outcome.error }

/-- _execute_job_sync (real_main.py lines 267-354) with the execution
result abstracted as an argument; the boolean reports whether the
executor was invoked (and hence a per-job workspace directory was
created).  A missing row is skipped; otherwise the row is moved to
running WITHOUT checking its current status, the real executor's
validator runs, and the job finishes failed (unsafe script or failed
run, keeping the failure data) or completed with the executor's data
stored verbatim. -/
def RealMain.execute_job_sync (row : Option Job) (er : ExecResult) :
    Option Job × Bool :=
  match row with
  | none => (none, false)
  | some job =>
    let job1 := { job with status := JobStatus.running }
    let sec := RealExecutor.validate_script_security
      job.script_content job.script_type
    if !sec.is_safe then
      (some { job1 with
              status := .failed,
              error_message := some ("Script failed security validation: " ++
                toString sec.warnings) }, false)
    else if er.success then
      (some { job1 with
              status := .completed,
              result_data := some er.data,
              records_processed := some (er.records_processed.getD 0) }, true)
    else
      (some { job1 with
              status := .failed,
              error_message := er.error,
              result_data := some er.data }, true)

/-- Python values a user script may hand to the shim: JSON-native
scalars, lists and string-keyed dicts, plus the numpy scalar and array
types the shim coerces (data_loader.py lines 182-196). -/
inductive PyValue where
  | pnone
  | pbool (b : Bool)
  | pint (n : Int)
  | pfloat (q : ℚ)
  | pstr (s : String)
  | plist (xs : List PyValue)
  | pdict (fs : List (String × PyValue))
  | npInt (n : Int)
  | npFloat (q : ℚ)
  | npBool (b : Bool)
  | npArray (xs : List PyValue)
deriving Repr

mutual
/-- convert_to_python_types inside save_results (data_loader.py lines
182-196): dicts and lists are recursed, numpy integers and floats
become Python scalars via item(), numpy booleans become bool, numpy
arrays become nested Python lists via tolist(), everything else passes
through. -/
def convert_to_python_types : PyValue → PyValue
  | .pdict fs => .pdict (convert_fields fs)
  | .plist xs => .plist (convert_list xs)
  | .npInt n => .pint n
  | .npFloat q => .pfloat q
  | .npBool b => .pbool b
  | .npArray xs => .plist (convert_list xs)
  | v => v
def convert_list : List PyValue → List PyValue
  | [] => []
  | x :: rest => convert_to_python_types x :: convert_list rest
def convert_fields : List (String × PyValue) → List (String × PyValue)
  | [] => []
  | (k, v) :: rest => (k, convert_to_python_types v) :: convert_fields rest
end

mutual
/-- Whether a value is JSON-safe: built only from null, bool, int,
float, string, lists and string-keyed dicts, with no numpy leaf left.
json.dump serialises exactly these and json.load parses the document
back to the same value, so on JSON-safe values writing and re-reading
the output file is the identity. -/
def json_safe : PyValue → Bool
  | .pnone => true
  | .pbool _ => true
  | .pint _ => true
  | .pfloat _ => true
  | .pstr _ => true
  | .plist xs => json_safe_list xs
  | .pdict fs => json_safe_fields fs
  | .npInt _ => false
  | .npFloat _ => false
  | .npBool _ => false
  | .npArray _ => false
def json_safe_list : List PyValue → Bool
  | [] => true
  | x :: rest => json_safe x && json_safe_list rest
def json_safe_fields : List (String × PyValue) → Bool
  | [] => true
  | (_, v) :: rest => json_safe v && json_safe_fields rest
end

/-- save_results (data_loader.py lines 163-204): fails when the
OUTPUT_FILE environment variable is unset; otherwise coerces the result
mapping with convert_to_python_types and writes the coerced value as
the single JSON document of the output file.  The returned value is the
JSON document written to the well-known output path. -/
def save_results (output_file_set : Bool)
    (results : List (String × PyValue)) : Except String PyValue :=
  if output_file_set then .ok (convert_to_python_types (.pdict results))
  else .error "OUTPUT_FILE not set. Cannot save results."

mutual
/-- Decidable scan over a sanitized result: every float stored directly
as a dictionary value (at any dict nesting depth) equals its own
p-decimal rounding.  Floats inside lists are not inspected, matching
what _sanitize_result_dict guarantees. -/
def dict_floats_rounded (p : Nat) : JValue → Bool
  | .jobj fs => dict_floats_rounded_fields p fs
  | _ => true
def dict_floats_rounded_fields (p : Nat) : List (String × JValue) → Bool
  | [] => true
  | (_, v) :: rest =>
    (match v with
     | .jfloat q => decide (pyRound p q = q)
     | _ => true) &&
    dict_floats_rounded p v && dict_floats_rounded_fields p rest
end

mutual
/-- Decidable scan over a sanitized result: every list stored directly
as a dictionary value (at any dict nesting depth) has length at most m. -/
def dict_lists_bounded (m : Int) : JValue → Bool
  | .jobj fs => dict_lists_bounded_fields m fs
  | _ => true
def dict_lists_bounded_fields (m : Int) : List (String × JValue) → Bool
  | [] => true
  | (_, v) :: rest =>
    (match v with
     | .jarr xs => decide ((xs.length : Int) ≤ m)
     | _ => true) &&
    dict_lists_bounded m v && dict_lists_bounded_fields m rest
end

/-- json.load applied to the serialized output document: only JSON-safe
documents can be serialized by json.dump, and parsing the serialized
form of a JSON-safe value returns the value itself. -/
def read_output (doc : PyValue) : Option PyValue :=
  if json_safe doc then some doc else none

/-- Rounding an integer changes nothing. -/
theorem roundHalfEven_intCast (z : ℤ) : roundHalfEven (z : ℚ) = z := by
  norm_num [roundHalfEven, Int.floor_intCast]

/-- Python round to p decimals is idempotent. -/
theorem pyRound_idem (p : Nat) (q : ℚ) :
    pyRound p (pyRound p q) = pyRound p q := by
  unfold pyRound
  rw [div_mul_cancel₀ _ (by positivity : ((10 : ℚ) ^ p) ≠ 0),
    roundHalfEven_intCast]

mutual
/-- In a sanitized value every dictionary-value float is rounded. -/
theorem sanitize_value_floats (m : Int) (p : Nat) : (v : JValue) →
    dict_floats_rounded p (sanitize_value m p v) = true
  | .jnull => rfl
  | .jbool _ => rfl
  | .jint _ => rfl
  | .jfloat _ => rfl
  | .jstr _ => rfl
  | .jarr xs => by
    simp only [sanitize_value]
    split
    · rfl
    · rfl
  | .jobj fs => by
    simp only [sanitize_value, dict_floats_rounded]
    exact sanitize_fields_floats m p fs
/-- In a sanitized dictionary every dictionary-value float is rounded. -/
theorem sanitize_fields_floats (m : Int) (p : Nat) :
    (fs : List (String × JValue)) →
    dict_floats_rounded_fields p (sanitize_fields m p fs) = true
  | [] => rfl
  | (k, v) :: rest => by
    simp only [sanitize_fields, dict_floats_rounded_fields]
    rw [Bool.and_eq_true, Bool.and_eq_true]
    refine ⟨⟨?_, sanitize_value_floats m p v⟩, sanitize_fields_floats m p rest⟩
    cases v with
    | jfloat q => simp [sanitize_value, pyRound_idem]
    | jarr xs =>
      by_cases h : (xs.length : Int) > m
      · simp [sanitize_value, h]
      · simp [sanitize_value, h]
    | jnull => rfl
    | jbool _ => rfl
    | jint _ => rfl
    | jstr _ => rfl
    | jobj _ => rfl
end

mutual
/-- In a sanitized value every dictionary-value list is short. -/
theorem sanitize_value_lists (m : Int) (p : Nat) : (v : JValue) →
    dict_lists_bounded m (sanitize_value m p v) = true
  | .jnull => rfl
  | .jbool _ => rfl
  | .jint _ => rfl
  | .jfloat _ => rfl
  | .jstr _ => rfl
  | .jarr xs => by
    simp only [sanitize_value]
    split
    · rfl
    · rfl
  | .jobj fs => by
    simp only [sanitize_value, dict_lists_bounded]
    exact sanitize_fields_lists m p fs
/-- In a sanitized dictionary every dictionary-value list has length at
most the min_cohort_size bound. -/
theorem sanitize_fields_lists (m : Int) (p : Nat) :
    (fs : List (String × JValue)) →
    dict_lists_bounded_fields m (sanitize_fields m p fs) = true
  | [] => rfl
  | (k, v) :: rest => by
    simp only [sanitize_fields, dict_lists_bounded_fields]
    rw [Bool.and_eq_true, Bool.and_eq_true]
    refine ⟨⟨?_, sanitize_value_lists m p v⟩, sanitize_fields_lists m p rest⟩
    cases v with
    | jarr xs =>
      by_cases h : (xs.length : Int) > m
      · simp [sanitize_value, h]
      · simp only [sanitize_value, if_neg h, decide_eq_true_eq]
        omega
    | jnull => rfl
    | jbool _ => rfl
    | jint _ => rfl
    | jfloat _ => rfl
    | jstr _ => rfl
    | jobj _ => rfl
end

mutual
/-- The shim coercion leaves no numpy value behind. -/
theorem json_safe_convert : (v : PyValue) →
    json_safe (convert_to_python_types v) = true
  | .pnone => rfl
  | .pbool _ => rfl
  | .pint _ => rfl
  | .pfloat _ => rfl
  | .pstr _ => rfl
  | .plist xs => by
    simp only [convert_to_python_types, json_safe]
    exact json_safe_convert_list xs
  | .pdict fs => by
    simp only [convert_to_python_types, json_safe]
    exact json_safe_convert_fields fs
  | .npInt _ => rfl
  | .npFloat _ => rfl
  | .npBool _ => rfl
  | .npArray xs => by
    simp only [convert_to_python_types, json_safe]
    exact json_safe_convert_list xs
/-- List version of `json_safe_convert`. -/
theorem json_safe_convert_list : (xs : List PyValue) →
    json_safe_list (convert_list xs) = true
  | [] => rfl
  | x :: rest => by
    simp only [convert_list, json_safe_list, json_safe_convert x,
      json_safe_convert_list rest, Bool.and_self]
/-- Dict version of `json_safe_convert`. -/
theorem json_safe_convert_fields : (fs : List (String × PyValue)) →
    json_safe_fields (convert_fields fs) = true
  | [] => rfl
  | (k, v) :: rest => by
    simp only [convert_fields, json_safe_fields, json_safe_convert v,
      json_safe_convert_fields rest, Bool.and_self]
end

mutual
/-- The shim coercion is idempotent. -/
theorem convert_idem : (v : PyValue) →
    convert_to_python_types (convert_to_python_types v) =
      convert_to_python_types v
  | .pnone => rfl
  | .pbool _ => rfl
  | .pint _ => rfl
  | .pfloat _ => rfl
  | .pstr _ => rfl
  | .plist xs => by
    simp only [convert_to_python_types, convert_idem_list xs]
  | .pdict fs => by
    simp only [convert_to_python_types, convert_idem_fields fs]
  | .npInt _ => rfl
  | .npFloat _ => rfl
  | .npBool _ => rfl
  | .npArray xs => by
    simp only [convert_to_python_types, convert_idem_list xs]
/-- List version of `convert_idem`. -/
theorem convert_idem_list : (xs : List PyValue) →
    convert_list (convert_list xs) = convert_list xs
  | [] => rfl
  | x :: rest => by
    simp only [convert_list, convert_idem x, convert_idem_list rest]
/-- Dict version of `convert_idem`. -/
theorem convert_idem_fields : (fs : List (String × PyValue)) →
    convert_fields (convert_fields fs) = convert_fields fs
  | [] => rfl
  | (k, v) :: rest => by
    simp only [convert_fields, convert_idem v, convert_idem_fields rest]
end

/-- Claim C8: the cancel endpoint transitions a job to cancelled
exactly when its current status is queued or running; on a terminal job
every cancel call, including repeated ones, returns the same 400 error
without mutating the stored row. -/
theorem C8_cancel_semantics :
    (∀ j : Job, j.status = .queued ∨ j.status = .running →
      cancel_job j =
        ({ j with status := .cancelled }, .ok "Job cancelled successfully")) ∧
    (∀ j : Job, j.status.isTerminal = true →
      cancel_job j = (j, .httpError 400 "Job cannot be cancelled") ∧
      cancel_job (cancel_job j).1 =
        (j, .httpError 400 "Job cannot be cancelled")) ∧
    (∀ j : Job, j.status ≠ .cancelled →
      ((cancel_job j).1.status = .cancelled ↔
        (j.status = .queued ∨ j.status = .running))) := by
  refine ⟨?_, ?_, ?_⟩
  · intro j h
    rcases h with h | h <;> simp [cancel_job, h]
  · intro j h
    cases hs : j.status <;>
      simp [JobStatus.isTerminal, hs] at h ⊢ <;>
      simp [cancel_job, hs]
  · intro j h
    cases hs : j.status <;> simp [cancel_job, hs] at h ⊢

/-- Job used by the C8 witness: a queued job that can be cancelled. -/
def C8_jobQ : Job :=
  { job_id := "c8-q", status := .queued, script_type := "python",
    script_content := "x = 1", result_data := none,
    error_message := none, records_processed := none }

/-- Job used by the C8 witness: a completed (terminal) job. -/
def C8_jobC : Job :=
  { job_id := "c8-c", status := .completed, script_type := "python",
    script_content := "x = 1", result_data := some (.jobj []),
    error_message := none, records_processed := some 150 }

/-- Witness for C8 at concrete jobs: a queued job is cancelled with the
success message; a completed job is rejected with the 400 error, stably
under repetition. -/
theorem C8_cancel_semantics_witness :
    cancel_job C8_jobQ =
      ({ C8_jobQ with status := .cancelled }, .ok "Job cancelled successfully") ∧
    cancel_job C8_jobC = (C8_jobC, .httpError 400 "Job cannot be cancelled") ∧
    cancel_job (cancel_job C8_jobC).1 =
      (C8_jobC, .httpError 400 "Job cannot be cancelled") :=
  ⟨C8_cancel_semantics.1 C8_jobQ (Or.inl rfl),
   (C8_cancel_semantics.2.1 C8_jobC rfl).1,
   (C8_cancel_semantics.2.1 C8_jobC rfl).2⟩

/-- Claim C9: save_results writes the shim-coerced form of the result
mapping to the output path; parsing the written document returns
exactly that coerced value (it is JSON-safe, so serialization round
trips), and the coercion is idempotent, so the parsed value is
semantically the input mapping with numpy scalars and arrays replaced
by Python scalars and lists. -/
theorem C9_save_results_roundtrip (x : List (String × PyValue)) :
    save_results true x = .ok (convert_to_python_types (.pdict x)) ∧
    read_output (convert_to_python_types (.pdict x)) =
      some (convert_to_python_types (.pdict x)) ∧
    convert_to_python_types (convert_to_python_types (.pdict x)) =
      convert_to_python_types (.pdict x) :=
  ⟨rfl, by simp [read_output, json_safe_convert], convert_idem _⟩

/-- Claim C10: check_cohort_size measures DataFrames and lists by their
length and an int by its value, scores every other input as size 0, and
therefore reports any unrecognized input invalid, naming size 0 and the
configured minimum, whenever the minimum is positive. -/
theorem C10_cohort_fail_closed (min_c : Int) (h : 0 < min_c) :
    (∀ rows : Nat, cohort_input_size (.dataframe rows) = rows) ∧
    (∀ xs : List JValue, cohort_input_size (.pylist xs) = xs.length) ∧
    (∀ n : Int, cohort_input_size (.pyint n) = n) ∧
    check_cohort_size min_c .other =
      { is_valid := false, cohort_size := 0, min_required := min_c,
        message := "Cohort size 0 below minimum " ++ toString min_c } := by
  refine ⟨fun _ => rfl, fun _ => rfl, fun _ => rfl, ?_⟩
  have h0 : ¬ (cohort_input_size .other ≥ min_c) := by
    simp only [cohort_input_size]
    omega
  have hle : ¬ (min_c ≤ 0) := by omega
  simp [check_cohort_size, h0, cohort_input_size, hle]
  rfl

/-- Witness for C10 at the default node minimum 10. -/
theorem C10_cohort_fail_closed_witness :
    (0 : Int) < 10 ∧
    check_cohort_size 10 .other =
      { is_valid := false, cohort_size := 0, min_required := 10,
        message := "Cohort size 0 below minimum " ++ toString (10 : Int) } :=
  ⟨by norm_num, (C10_cohort_fail_closed 10 (by norm_num)).2.2.2⟩

/-- Completed job with records_processed 0 and raw result values, used
to refute claim C1: the stored zero is below any positive minimum, yet
Python truthiness lets it through the view-level gate. -/
def C1_job : Job :=
  { job_id := "c1", status := .completed, script_type := "python",
    script_content := "", result_data :=
      some (.jobj [("age_mean", .jfloat (452 / 10))]),
    error_message := none, records_processed := some 0 }

/-- Counterexample to claim C1: a stored completed job with
records_processed 0, strictly below the effective minimum cohort size
10 (no catalog override), is returned by the job view with status
completed and the full original result_data, not blocked. -/
theorem C1_counterexample :
    C1_job.status = .completed ∧
    C1_job.records_processed = some 0 ∧
    (0 : Int) < effective_min_cohort_size none 10 ∧
    (get_job_status 10 C1_job).status = .completed ∧
    (get_job_status 10 C1_job).result_data =
      some (.jobj [("age_mean", .jfloat (452 / 10))]) :=
  ⟨rfl, rfl, by norm_num [effective_min_cohort_size], rfl, rfl⟩

/-- Claim C1 as amended: the job view turns a completed job into a
blocked view with only the redaction message exactly when its
records_processed is non-null, non-zero and strictly below the
node-wide min_cohort_size; per-catalog overrides are not consulted, and
a zero or null records_processed is returned as completed. -/
theorem C1_amended (m : Int) (j : Job) (r : Int)
    (h1 : j.status = .completed) (h2 : j.records_processed = some r)
    (h3 : r ≠ 0) (h4 : r < m) :
    (get_job_status m j).status = .blocked ∧
    (get_job_status m j).result_data =
      some (.jobj [("message", .jstr (blockedMessage r m))]) ∧
    (get_job_status m j).error_message = none := by
  unfold get_job_status
  rw [h1, h2]
  simp [optIntTruthy, h3, h4]

/-- Completed job with a small positive cohort, used by the C1
witness. -/
def C1_wjob : Job :=
  { job_id := "c1-w", status := .completed, script_type := "python",
    script_content := "", result_data := some (.jobj [("mean", .jfloat 1)]),
    error_message := none, records_processed := some 3 }

/-- Witness for the amended C1 at a completed job with cohort 3 under
minimum 10. -/
theorem C1_amended_witness :
    (get_job_status 10 C1_wjob).status = .blocked ∧
    (get_job_status 10 C1_wjob).result_data =
      some (.jobj [("message", .jstr (blockedMessage 3 10))]) :=
  ⟨(C1_amended 10 C1_wjob 3 rfl rfl (by decide) (by decide)).1,
   (C1_amended 10 C1_wjob 3 rfl rfl (by decide) (by decide)).2.1⟩

/-- Executor output without a sample_size key, produced by a run whose
first loaded tabular file had 150 rows; used to refute claim C4. -/
def C4_out : List (String × JValue) := [("age_mean", .jfloat (452 / 10))]

/-- Completed job whose records_processed is the Python fallback 0,
used to refute the release-blocks-when-neither-exists part of C4. -/
def C4_job : Job :=
  { job_id := "c4", status := .completed, script_type := "python",
    script_content := "", result_data := some (.jobj C4_out),
    error_message := none, records_processed := some 0 }

/-- Counterexample to claim C4: when the result map has no sample_size
key, the executor reports records_processed 0 rather than the 150-row
count of the first loaded tabular file, and the release gate does not
block the resulting completed job either. -/
theorem C4_counterexample :
    lookupJ "sample_size" C4_out = none ∧
    RealExecutor.records_from_output C4_out = 0 ∧
    (0 : Int) ≠ 150 ∧
    (get_job_status 10 C4_job).status = .completed :=
  ⟨rfl, rfl, by decide, rfl⟩

/-- Claim C4 as amended: records_processed equals the integral
sample_size value when the key is present and the Python default 0 when
it is absent, independent of any loaded file row count; the docker and
local JobExecutor backends read the records_processed key instead,
defaulting to null; and a completed job whose records_processed is 0 is
returned as completed, not blocked, by the job view. -/
theorem C4_amended :
    (∀ (out : List (String × JValue)) (n : Int),
      lookupJ "sample_size" out = some (.jint n) →
      RealExecutor.records_from_output out = n) ∧
    (∀ out : List (String × JValue),
      lookupJ "sample_size" out = none →
      RealExecutor.records_from_output out = 0) ∧
    (∀ out : List (String × JValue),
      lookupJ "records_processed" out = none →
      JobExecutor.records_from_output out = none) ∧
    (∀ j : Job, j.status = .completed → j.records_processed = some 0 →
      (get_job_status 10 j).status = .completed ∧
      (get_job_status 10 j).result_data = j.result_data) := by
  refine ⟨?_, ?_, ?_, ?_⟩
  · intro out n h
    unfold RealExecutor.records_from_output
    rw [h]
  · intro out h
    unfold RealExecutor.records_from_output
    rw [h]
  · intro out h
    unfold JobExecutor.records_from_output
    rw [h]
  · intro j h1 h2
    unfold get_job_status
    rw [h1, h2]
    simp [optIntTruthy]

/-- Witness for the amended C4: a result map carrying sample_size 150,
one without it, and the completed cohort-0 job of the counterexample
input shape. -/
theorem C4_amended_witness :
    RealExecutor.records_from_output [("sample_size", .jint 150)] = 150 ∧
    RealExecutor.records_from_output C4_out = 0 ∧
    JobExecutor.records_from_output C4_out = none ∧
    (get_job_status 10 C4_job).status = .completed :=
  ⟨C4_amended.1 [("sample_size", .jint 150)] 150 rfl,
   C4_amended.2.1 C4_out rfl,
   C4_amended.2.2.1 C4_out rfl,
   (C4_amended.2.2.2 C4_job rfl rfl).1⟩

/-- The S3 scenario script of the specification (quoting ls with double
quotes): a call into os.system. -/
def pyOsSystemScript : String := "os.system(\"ls\")"

/-- Queued job whose script is the os.system call, used by the C3
theorems. -/
def C3_job : Job :=
  { job_id := "c3", status := .queued, script_type := "python",
    script_content := pyOsSystemScript, result_data := none,
    error_message := none, records_processed := none }

/-- Counterexample to claim C3: on the os.system script,
security.validate_script_security returns safe=true with risk low (its
high-danger subset for python is only exec( and eval(), while the real
executor's validator does refuse it but lists no blocked patterns at
all, so the failed job's error message cannot name os.system. -/
theorem C3_counterexample :
    (Security.validate_script_security pyOsSystemScript).is_safe = true ∧
    (Security.validate_script_security pyOsSystemScript).risk_level = "low" ∧
    (Security.validate_script_security pyOsSystemScript).blocked_patterns =
      ["os.system"] ∧
    (RealExecutor.validate_script_security pyOsSystemScript "python").is_safe
      = false ∧
    (RealExecutor.validate_script_security
      pyOsSystemScript "python").blocked_patterns = [] :=
  ⟨by decide, by decide, by decide, by decide, by decide⟩

/-- Claim C3 as amended: the real executor's validator judges a python
script unsafe exactly when it contains, case-insensitively, one of
subprocess, os.system, exec( or eval(; on the os.system script it does
so while reporting no blocked patterns, whereas security.py's validator
calls the same script safe with risk low; the worker then ends the job
terminal failed without invoking the executor (hence no workspace), its
error message carrying the empty warning list rather than os.system. -/
theorem C3_amended :
    (∀ s : String,
      (RealExecutor.validate_script_security s "python").is_safe =
        !(strOccurs (pyLower s) "subprocess" ||
          (strOccurs (pyLower s) "os.system" ||
            (strOccurs (pyLower s) "exec(" || strOccurs (pyLower s) "eval(")))) ∧
    (RealExecutor.validate_script_security pyOsSystemScript "python").is_safe
      = false ∧
    (Security.validate_script_security pyOsSystemScript).is_safe = true ∧
    (Security.validate_script_security pyOsSystemScript).blocked_patterns =
      ["os.system"] ∧
    (∀ er : ExecResult,
      RealMain.execute_job_sync (some C3_job) er =
        (some { C3_job with
                status := .failed,
                error_message :=
                  some "Script failed security validation: []" },
         false)) := by
  refine ⟨?_, by decide, by decide, by decide, ?_⟩
  · intro s
    have e1 : pyLower "subprocess" = "subprocess" := by decide
    have e2 : pyLower "os.system" = "os.system" := by decide
    have e3 : pyLower "exec(" = "exec(" := by decide
    have e4 : pyLower "eval(" = "eval(" := by decide
    simp only [RealExecutor.validate_script_security, List.any_cons,
      List.any_nil, Bool.or_false, e1, e2, e3, e4]
  · intro er
    rfl

/-- A configuration whose per-job wall-clock limit is 5 seconds, the S5
scenario of the specification. -/
def C6_settings : Settings := { max_execution_time := 5, min_cohort_size := 10 }

/-- A cleanly exited process, used by the C6 theorems. -/
def C6_res : SubprocessResult := { returncode := 0, stdout := "", stderr := "" }

/-- An output document with a sample_size, used by the C6 theorems. -/
def C6_out : List (String × JValue) := [("sample_size", .jint 150)]

/-- Counterexample to claim C6: with max_execution_time configured to
5, the real executor still lets a python script run for 200 seconds and
report success, because its subprocess timeout is the hard-coded 300
seconds, not the configured limit. -/
theorem C6_counterexample :
    C6_settings.max_execution_time = 5 ∧
    RealExecutor.python_timeout_seconds ≠ C6_settings.max_execution_time ∧
    (200 : Nat) > C6_settings.max_execution_time ∧
    (RealExecutor.execute_script 200 C6_res (some C6_out)).success = true :=
  ⟨rfl, by decide, by decide, rfl⟩

/-- Claim C6 as amended: the real executor bounds every python run by
the hard-coded 300 seconds and turns a timeout into a failure whose
message mentions the timeout, while the JobExecutor local backend uses
the configured max_execution_time as its bound, likewise failing with a
timeout message. -/
theorem C6_amended :
    RealExecutor.python_timeout_seconds = 300 ∧
    (∀ (d : Nat) (res : SubprocessResult)
        (out : Option (List (String × JValue))), d > 300 →
      (RealExecutor.execute_script d res out).success = false ∧
      (RealExecutor.execute_script d res out).error =
        some "Script execution timed out (5 minutes)") ∧
    (∀ (s : Settings) (d : Nat) (res : SubprocessResult)
        (out : Option (List (String × JValue))), d > s.max_execution_time →
      (JobExecutor.run_locally_timed s d res out).success = false ∧
      (JobExecutor.run_locally_timed s d res out).error =
        some ("Command timed out after " ++ toString s.max_execution_time ++
          " seconds")) := by
  refine ⟨rfl, ?_, ?_⟩
  · intro d res out h
    simp [RealExecutor.execute_script, RealExecutor.run_python,
      RealExecutor.python_timeout_seconds, h]
  · intro s d res out h
    simp [JobExecutor.run_locally_timed, h]

/-- Witness for the amended C6: a 301-second run is killed by the real
executor with the 5-minute message, and a 6-second run under the
5-second configuration is killed by the local backend. -/
theorem C6_amended_witness :
    (301 : Nat) > 300 ∧
    (RealExecutor.execute_script 301 C6_res (some C6_out)).success = false ∧
    (RealExecutor.execute_script 301 C6_res (some C6_out)).error =
      some "Script execution timed out (5 minutes)" ∧
    (JobExecutor.run_locally_timed C6_settings 6 C6_res (some C6_out)).success
      = false :=
  ⟨by decide,
   (C6_amended.2.1 301 C6_res (some C6_out) (by decide)).1,
   (C6_amended.2.1 301 C6_res (some C6_out) (by decide)).2,
   (C6_amended.2.2 C6_settings 6 C6_res (some C6_out) (by decide)).1⟩

/-- A job already terminal (cancelled while queued), used to refute
claim C7. -/
def C7_job : Job :=
  { job_id := "c7", status := .cancelled, script_type := "python",
    script_content := "x = 1", result_data := none,
    error_message := none, records_processed := none }

/-- A successful runner outcome, used by the C7 theorems. -/
def C7_oc : RunOutcome :=
  { success := true, data := some (.jobj [("sample_size", .jint 150)]),
    error := none, records_processed := some 150, logs := "" }

/-- Counterexample to claim C7: the worker dequeues a job whose stored
row is already terminal (cancelled) and, far from skipping, executes it
and overwrites the terminal state with completed, a second terminal
write. -/
theorem C7_counterexample :
    C7_job.status.isTerminal = true ∧
    JobExecutor.execute_job (some C7_job) C7_oc =
      some { C7_job with
             status := .completed,
             result_data := some (.jobj [("sample_size", .jint 150)]),
             records_processed := some 150 } :=
  ⟨rfl, rfl⟩

/-- Claim C7 as amended: the worker skips only when the dequeued row is
missing; it never consults the row's current status (the outcome is the
same whatever status the row holds), so a safe script with a successful
run is always persisted as completed, even over a terminal row such as
one cancelled while queued. -/
theorem C7_amended :
    (∀ oc : RunOutcome, JobExecutor.execute_job none oc = none) ∧
    (∀ (j : Job) (oc : RunOutcome) (s1 s2 : JobStatus),
      JobExecutor.execute_job (some { j with status := s1 }) oc =
        JobExecutor.execute_job (some { j with status := s2 }) oc) ∧
    (∀ (j : Job) (oc : RunOutcome),
      (Security.validate_script_security j.script_content).is_safe = true →
      oc.success = true →
      JobExecutor.execute_job (some j) oc =
        some { j with
               status := .completed,
               result_data := oc.data,
               records_processed := oc.records_processed }) := by
  refine ⟨fun _ => rfl, ?_, ?_⟩
  · intro j oc s1 s2
    cases j
    rfl
  · intro j oc h1 h2
    cases j
    simp only [JobExecutor.execute_job, h1, Bool.not_true, Bool.false_eq_true,
      if_false, h2, if_true]

/-- Witness for the amended C7 at the cancelled job of the
counterexample: a successful run overwrites the terminal status. -/
theorem C7_amended_witness :
    JobExecutor.execute_job (some C7_job) C7_oc =
      some { C7_job with
             status := .completed,
             result_data := C7_oc.data,
             records_processed := C7_oc.records_processed } :=
  C7_amended.2.2 C7_job C7_oc (by decide) rfl

end StimNet
